import Mathlib

/-!
# Verification of the Tactical-Chatbot frontend pipeline

Shallow embedding of `src/src/App.js` (React frontend of the
Tactical-Chatbot repository) together with spec-modelled fragments of the
backend terrain cache and scenario detector (the Python backend is not part
of the provided sources).

Strings are modelled as Lean `String`s (a wrapper around `List Char`);
JavaScript numbers arriving from JSON are modelled as exact rationals `ℚ`
(every IEEE double is a dyadic rational, so its decimal rendering
terminates); `null`/`undefined` fields are `Option`s.
-/

namespace TacticalChatbot

/-! ## Generic string helpers (JS semantics) -/

/-- Whitespace characters removed by `String.prototype.trim` (space, tab,
line feed, carriage return, form feed, vertical tab cover every character
that occurs in this code path). -/
def jsWhitespace (c : Char) : Bool :=
  c = ' ' || c = '\t' || c = '\n' || c = '\r' || c = '\x0b' || c = '\x0c'

/-- JS `String.prototype.trim`: drop whitespace from both ends. -/
def jsTrim (s : String) : String :=
  String.mk (((s.toList.dropWhile jsWhitespace).reverse.dropWhile jsWhitespace).reverse)

/-- JS `String.prototype.toLowerCase` (ASCII part, which is all the code
compares against). -/
def jsToLower (s : String) : String :=
  String.mk (s.toList.map Char.toLower)

/-- JS `String.prototype.toUpperCase` (ASCII part). -/
def jsToUpper (s : String) : String :=
  String.mk (s.toList.map Char.toUpper)

/-- JS `String.prototype.endsWith`. -/
def strEndsWith (s suffix : String) : Bool :=
  suffix.toList.isSuffixOf s.toList

/-- JS `String.prototype.includes`: does `needle` occur contiguously in
the list? -/
def listIncludes (needle : List Char) : List Char → Bool
  | [] => needle.isEmpty
  | c :: rest => needle.isPrefixOf (c :: rest) || listIncludes needle rest

/-- JS `Array.prototype.join(', ')` (used for the invalid-file list). -/
def joinComma : List String → String
  | [] => ""
  | [x] => x
  | x :: rest => x ++ ", " ++ joinComma rest

/-- JS `Array.prototype.join(' > ')` (used for `models_used`). -/
def joinArrow : List String → String
  | [] => ""
  | [x] => x
  | x :: rest => x ++ " > " ++ joinArrow rest

/-- `'c'.repeat(n)` / a literal run of `n` copies of a character. -/
def charRepeat (c : Char) (n : Nat) : String :=
  String.mk (List.replicate n c)

/-- Left-pad a digit string with zeros to width `k`. -/
def padZeros (k : Nat) (s : String) : String :=
  charRepeat '0' (k - s.length) ++ s

/-- Rendering of a JSON/JS number by template interpolation (`${x}`),
i.e. `Number::toString`.  Every number occurring in this program is a
decimal-valued double, whose expansion terminates; we print the exact
terminating decimal expansion (minimal number of fraction digits).  The
final case (denominator not of the form 2^a·5^b) cannot arise from a
double and is rendered as a fraction. -/
def jsNumToString (q : ℚ) : String :=
  let sign := if q.num < 0 then "-" else ""
  let n := q.num.natAbs
  let d := q.den
  match (List.range (d + 1)).find? (fun k => (10 ^ k) % d = 0) with
  | some k =>
    if k = 0 then sign ++ Nat.repr n
    else
      let scaled := n * 10 ^ k / d
      sign ++ Nat.repr (scaled / 10 ^ k) ++ "." ++ padZeros k (Nat.repr (scaled % 10 ^ k))
  | none => sign ++ Nat.repr n ++ "/" ++ Nat.repr d

/-- JS `Number.prototype.toFixed(d)`: round to `d` fraction digits,
ties toward `+∞`, and always print exactly `d` fraction digits. -/
def jsToFixed (d : Nat) (q : ℚ) : String :=
  let scaled : Int := (q * (10 : ℚ) ^ d + 1 / 2).floor
  let sign := if scaled < 0 then "-" else ""
  let n := scaled.natAbs
  if d = 0 then sign ++ Nat.repr n
  else sign ++ Nat.repr (n / 10 ^ d) ++ "." ++ padZeros d (Nat.repr (n % 10 ^ d))

/-- JS truthiness of a possibly-missing string field (`undefined`, `null`
and `''` are falsy). -/
def jsTruthyStr : Option String → Bool
  | none => false
  | some s => !(s = "")

/-- Interpolation of a possibly-missing string field (`${x}` prints
`undefined` when the field is absent). -/
def jsOptStr : Option String → String
  | none => "undefined"
  | some s => s

/-- JS `x || 0` on a number-or-null: `null`, `undefined` and `0` are
falsy, so the result is `0` exactly when the input is missing or zero. -/
def jsOrZero : Option ℚ → ℚ
  | none => 0
  | some q => if q = 0 then 0 else q

/-! ## Coordinate detection (`App.js` line 446)

`const coordPattern = /\d{1,3}\.\d{4,}/; coordPattern.test(inputValue)`.

`test` succeeds iff some position of the string starts a match: one to
three digits, a dot, then at least four digits. -/

/-- Count of leading ASCII digits (`\d`). -/
def digitRun : List Char → Nat
  | [] => 0
  | c :: cs => if c.isDigit then digitRun cs + 1 else 0

/-- Does `/\d{1,3}\.\d{4,}/` match at the head of `s`?  The quantifier
`{1,3}` backtracks, so a head match exists iff some `k ∈ {1,2,3}` digits
are followed by `'.'` and at least four digits. -/
def matchCoordAt (s : List Char) : Bool :=
  [1, 2, 3].any (fun k =>
    (s.take k).length = k && (s.take k).all Char.isDigit &&
    (match s.drop k with
     | '.' :: rest => 4 ≤ digitRun rest
     | _ => false))

/-- `coordPattern.test`: does the pattern match anywhere in the text? -/
def coordTest : List Char → Bool
  | [] => false
  | c :: rest => matchCoordAt (c :: rest) || coordTest rest

/-! ## Chat data model (`App.js` `Chatbot` component state and backend
responses) -/

/-- A chat message as stored in the `messages` state array.  Messages
created without `isError` / `mode` get `false` / `none`. -/
structure Message where
  role : String
  text : String
  isError : Bool
  mode : Option String
deriving DecidableEq, Repr

/-- `data.terrain_data.weather` of a successful `/analyze_coordinates`
response; each field may be `null`. -/
structure Weather where
  avg_temp_c : Option ℚ
  total_precipitation_mm : Option ℚ
  avg_wind_speed_max_kmh : Option ℚ
  max_wind_gust_kmh : Option ℚ
deriving DecidableEq, Repr

/-- `data.terrain_data.address` (reverse-geocoding result). -/
structure Address where
  country : Option String
  country_code : Option String
deriving DecidableEq, Repr

/-- `data.terrain_data.terrain_analysis`. -/
structure TerrainAnalysis where
  high_ground : Bool
  cover_availability : String
  urban_terrain : Bool
deriving DecidableEq, Repr

/-- `data.terrain_data.location`. -/
structure TerrainLocation where
  radius_km : ℚ
deriving DecidableEq, Repr

/-- `data.terrain_data` of a successful `/analyze_coordinates` response. -/
structure TerrainData where
  terrain_analysis : TerrainAnalysis
  place_name : Option String
  address : Option Address
  weather : Option Weather
  elevation : Option ℚ
  location : TerrainLocation
deriving DecidableEq, Repr

/-- `data.coordinates`. -/
structure Coordinates where
  lat : ℚ
  lon : ℚ
deriving DecidableEq, Repr

/-- Outcome of the `fetch` to `/analyze_coordinates` as seen by
`handleSendMessage`: a successful response (`response.ok && data.success`),
a non-success response carrying `data.error`, or a thrown network error. -/
inductive AnalyzeResponse where
  | success (coordinates : Coordinates) (terrain_data : TerrainData)
      (scenario : String) (models_used : List String) (strategy : String)
  | failure (error : String)
  | netError
deriving DecidableEq, Repr

/-- Outcome of the `fetch` to `/chat`. -/
inductive ChatResponse where
  | success (response : String) (mode : String)
  | failure (error : String)
  | netError
deriving DecidableEq, Repr

/-- The backend, as the pair of responses it would give to the two
endpoints `handleSendMessage` can call. -/
structure Backend where
  analyze : AnalyzeResponse
  chat : ChatResponse

/-- Which endpoint a `handleSendMessage` run requested. -/
inductive Endpoint where
  | analyzeCoordinates
  | chat
deriving DecidableEq, Repr

/-- The component state touched by `handleSendMessage`. -/
structure AppState where
  messages : List Message
  inputValue : String
  isThinking : Bool
deriving DecidableEq, Repr

/-! ## Weather rendering inside `handleSendMessage`
(`App.js` lines 477–502) -/

/-- The threshold chain of `kmhToBeaufort` (`App.js` lines 479–491). -/
def bftVal (kmh : ℚ) : Nat :=
  if kmh < 1 then 0
  else if kmh ≤ 5 then 1
  else if kmh ≤ 11 then 2
  else if kmh ≤ 19 then 3
  else if kmh ≤ 28 then 4
  else if kmh ≤ 38 then 5
  else if kmh ≤ 49 then 6
  else if kmh ≤ 61 then 7
  else if kmh ≤ 74 then 8
  else if kmh ≤ 88 then 9
  else if kmh ≤ 102 then 10
  else if kmh ≤ 117 then 11
  else 12

/-- `kmhToBeaufort` (`App.js` lines 477–492): `null` propagates
(line 478), otherwise the wind speed is bucketed into the Beaufort
scale 0–12. -/
def kmhToBeaufort : Option ℚ → Option Nat
  | none => none
  | some kmh => some (bftVal kmh)

/-- Interpolation of the (never-`null` here) Beaufort number. -/
def bftStr : Option Nat → String
  | none => "null"
  | some n => Nat.repr n

/-- `avgWindStr` / `gustStr` (`App.js` lines 497–498): a `null` wind field
renders as `N/A`, otherwise `"<v> km/h (Bft <b>)"`. -/
def windFieldStr (w : Option ℚ) : String :=
  match w with
  | some k => jsNumToString k ++ " km/h (Bft " ++ bftStr (kmhToBeaufort (some k)) ++ ")"
  | none => "N/A"

/-- `weatherLine` (`App.js` lines 499–502): empty when `avg_temp_c` is
`null`; otherwise the two-line weather block, in which a `null`
`total_precipitation_mm` passes through `|| 0`. -/
def weatherLine (weather : Weather) : String :=
  match weather.avg_temp_c with
  | some t =>
      "- Weather (7d): " ++ jsNumToString t ++ "°C avg, " ++
        jsNumToString (jsOrZero weather.total_precipitation_mm) ++ "mm precip\n" ++
      "- Wind (7d): avg " ++ windFieldStr weather.avg_wind_speed_max_kmh ++
        ", gusts " ++ windFieldStr weather.max_wind_gust_kmh ++ "\n"
  | none => ""

/-- The exact rational value of the IEEE-754 double `Math.PI`. -/
def mathPI : ℚ := 884279719003555 / 281474976710656

/-- The empty weather object `{}` produced by `weather || {}` (all field
accesses yield `undefined`). -/
def emptyWeather : Weather := ⟨none, none, none, none⟩

/-- The empty address object `{}` produced by `address || {}`. -/
def emptyAddress : Address := ⟨none, none⟩

/-- `place_name || coordStr` (JS `||`: the empty string is falsy). -/
def jsOrStr (o : Option String) (d : String) : String :=
  match o with
  | none => d
  | some s => if s = "" then d else s

/-- The text of the assistant message built on a successful
`/analyze_coordinates` response (`App.js` lines 506–524), segment by
segment as the source concatenates it. -/
def tacticalText (coordinates : Coordinates) (terrain_data : TerrainData)
    (scenario : String) (models_used : List String) (strategy : String) : String :=
  let coordStr := jsToFixed 6 coordinates.lat ++ ", " ++ jsToFixed 6 coordinates.lon
  let terrain := terrain_data.terrain_analysis
  let placeName := jsOrStr terrain_data.place_name coordStr
  let address := terrain_data.address.getD emptyAddress
  let weather := terrain_data.weather.getD emptyWeather
  charRepeat '═' 59 ++ "\n" ++
  "COORDINATE-BASED TACTICAL ANALYSIS\n" ++
  charRepeat '═' 59 ++ "\n\n" ++
  ("Location: " ++ placeName ++ "\n") ++
  ("Coordinates: " ++ coordStr ++ "\n") ++
  (if jsTruthyStr address.country then
    "Country: " ++ jsOptStr address.country ++ " (" ++ jsOptStr address.country_code ++ ")\n"
   else "") ++
  ("Analysis Area: " ++ jsNumToString terrain_data.location.radius_km ++ " km radius (~" ++
    jsToFixed 1 (mathPI * terrain_data.location.radius_km ^ 2) ++ " km²)\n") ++
  ("Scenario: " ++ scenario ++ "\n") ++
  ("Analysis Method: " ++ joinArrow models_used ++ "\n\n") ++
  "Quick Terrain Assessment:\n" ++
  ("- Elevation: " ++
    (match terrain_data.elevation with
     | some e => jsToFixed 1 e ++ "m"
     | none => "Unknown") ++ "\n") ++
  ("- High Ground: " ++ (if terrain.high_ground then "YES" else "NO") ++ "\n") ++
  ("- Cover: " ++ jsToUpper terrain.cover_availability ++ "\n") ++
  ("- Urban: " ++ (if terrain.urban_terrain then "YES" else "NO") ++ "\n") ++
  (weatherLine weather ++ "\n") ++
  (charRepeat '─' 60 ++ "\n\n") ++
  (strategy ++ "\n\n") ++
  (charRepeat '─' 60 ++ "\n") ++
  "Data: Real terrain from OpenStreetMap + Open-Meteo Elevation API + Nominatim"

/-- The assistant message of the success branch (`App.js` lines 504–526). -/
def tacticalResponse (coordinates : Coordinates) (terrain_data : TerrainData)
    (scenario : String) (models_used : List String) (strategy : String) : Message :=
  ⟨"assistant", tacticalText coordinates terrain_data scenario models_used strategy,
    false, some "coordinate_tactical"⟩

/-- The system message of an error branch (`App.js` lines 529–534 and
556–561): `Error: ${data.error}`. -/
def backendErrorMessage (e : String) : Message :=
  ⟨"system", "Error: " ++ e, true, none⟩

/-- The system message of the `catch` branch (`App.js` lines 565–569). -/
def connectionErrorMessage : Message :=
  ⟨"system", "Connection error. Check backend status.", true, none⟩

/-- `handleSendMessage` (`App.js` lines 437–574) as a pure transition:
given the component state and the backend's responses it returns the final
state (after the `finally` reset of `isThinking`) and the endpoint
requested, if any.  An empty-after-trim input returns immediately. -/
def handleSendMessage (st : AppState) (backend : Backend) : AppState × Option Endpoint :=
  if jsTrim st.inputValue = "" then (st, none)
  else
    let userMessage : Message := ⟨"user", st.inputValue, false, none⟩
    let msgs := st.messages ++ [userMessage]
    let hasCoordinates := coordTest st.inputValue.toList
    if hasCoordinates then
      match backend.analyze with
      | .success coordinates terrain_data scenario models_used strategy =>
          (⟨msgs ++ [tacticalResponse coordinates terrain_data scenario models_used strategy],
            "", false⟩, some .analyzeCoordinates)
      | .failure e =>
          (⟨msgs ++ [backendErrorMessage e], "", false⟩, some .analyzeCoordinates)
      | .netError =>
          (⟨msgs ++ [connectionErrorMessage], "", false⟩, some .analyzeCoordinates)
    else
      match backend.chat with
      | .success response mode =>
          (⟨msgs ++ [⟨"assistant", response, false, some mode⟩], "", false⟩, some .chat)
      | .failure e =>
          (⟨msgs ++ [backendErrorMessage e], "", false⟩, some .chat)
      | .netError =>
          (⟨msgs ++ [connectionErrorMessage], "", false⟩, some .chat)

/-! ## File upload (`App.js` lines 217–278 and 364–435)

Only the file name decides validity and routing, so a selected file is
modelled by its name; the backend is a map from file name to upload
outcome.  The transition returns the new `messages` array together with
the list of file names for which an upload request was issued. -/

/-- Outcome of the `fetch` to `/upload` for one file. -/
inductive UploadResponse where
  | ok (chunks : Nat) (file_size_kb : ℚ)
  | err (error : String)
  | netError
deriving DecidableEq, Repr

/-- The transient system message of `uploadDocument`. -/
def processingText : String := "Processing document..."

/-- `uploadDocument` (`App.js` lines 217–278): optionally posts the
progress message, always issues the upload, filters the progress message
back out, and posts a completion or error message.  Returns the new
messages and the `true`/`false` success result. -/
def uploadDocument (name : String) (showCompletion : Bool)
    (resp : UploadResponse) (msgs : List Message) : List Message × Bool :=
  let msgs1 := if showCompletion then msgs ++ [⟨"system", processingText, false, none⟩] else msgs
  match resp with
  | .ok chunks file_size_kb =>
      let msgs2 := msgs1.filter (fun m => !(m.text == processingText))
      let msgs3 := if showCompletion then
          msgs2 ++ [⟨"system",
            "✓ Indexed: " ++ name ++ "\nChunks: " ++ Nat.repr chunks ++
              " | Size: " ++ jsNumToString file_size_kb ++ "KB\n\nReady for queries.",
            false, none⟩]
        else msgs2
      (msgs3, true)
  | .err e =>
      let msgs2 := msgs1.filter (fun m => !(m.text == processingText))
      (msgs2 ++ [⟨"system", "Error: " ++ e, true, none⟩], false)
  | .netError =>
      let msgs2 := msgs1.filter (fun m => !(m.text == processingText))
      (msgs2 ++ [⟨"system", "Connection failed.", true, none⟩], false)

/-- `allowedTypes` (`App.js` line 368). -/
def allowedTypes : List String := [".pdf", ".jpg", ".jpeg", ".png", ".bmp", ".tiff"]

/-- `imageExtensions` (`App.js` line 385). -/
def imageExtensions : List String := [".jpg", ".jpeg", ".png", ".bmp", ".tiff"]

/-- The per-file validity test of `App.js` lines 369–371. -/
def isAllowedFile (name : String) : Bool :=
  allowedTypes.any (fun ext => strEndsWith (jsToLower name) ext)

/-- The info message posted before an image is routed to OCR upload
(`App.js` lines 390–394). -/
def imageInfoText : String :=
  "ℹ️ Image files are processed via OCR for document analysis.\n\n" ++
  "For tactical terrain analysis, provide coordinates in your message " ++
  "(e.g., \"Analyze defensive positions at 48.8566, 2.3522\")"

/-- The rejection message for invalid selections (`App.js` lines 373–382). -/
def invalidFilesMessage (invalidFiles : List String) : Message :=
  ⟨"system",
    "Invalid file type(s): " ++ joinComma invalidFiles ++
      "\nAccepted: PDF, JPG, PNG, BMP, TIFF",
    true, none⟩

/-- The multi-PDF loop of `App.js` lines 415–419: upload each file without
per-file completion messages, counting successes and failures. -/
def uploadLoop (resp : String → UploadResponse) :
    List String → List Message → List Message × Nat × Nat
  | [], msgs => (msgs, 0, 0)
  | f :: rest, msgs =>
      let r := uploadDocument f false (resp f) msgs
      let tail := uploadLoop resp rest r.1
      (tail.1, (if r.2 then 1 else 0) + tail.2.1, (if r.2 then 0 else 1) + tail.2.2)

/-- `handleFileUpload` (`App.js` lines 364–435): validation gate, then
image / single-PDF / multi-PDF routing.  Returns the new messages and the
names for which an upload request was issued. -/
def handleFileUpload (files : List String) (resp : String → UploadResponse)
    (msgs : List Message) : List Message × List String :=
  match files with
  | [] => (msgs, [])
  | firstFile :: _ =>
    let invalidFiles := files.filter (fun f => !(isAllowedFile f))
    if 0 < invalidFiles.length then
      (msgs ++ [invalidFilesMessage invalidFiles], [])
    else
      let isImage := imageExtensions.any (fun ext => strEndsWith (jsToLower firstFile) ext)
      if isImage then
        let msgs1 := msgs ++ [⟨"system", imageInfoText, false, none⟩]
        ((uploadDocument firstFile true (resp firstFile) msgs1).1, [firstFile])
      else if 1 < files.length then
        let msgs1 := msgs ++ [⟨"system",
          "Processing " ++ Nat.repr files.length ++ " documents...\nPlease wait...",
          false, none⟩]
        let r := uploadLoop resp files msgs1
        let msgs2 := r.1.filter (fun m => !(listIncludes "Processing".toList m.text.toList))
        (msgs2 ++ [⟨"system",
          "✓ Batch Upload Complete\n\nSuccess: " ++ Nat.repr r.2.1 ++
            " | Failed: " ++ Nat.repr r.2.2 ++ "\n\nReady for queries.",
          r.2.2 == files.length, none⟩], files)
      else
        ((uploadDocument firstFile true (resp firstFile) msgs).1, [firstFile])

/-! ## Inline markdown formatting (`App.js` lines 69–127)

`renderInlineFormatting` repeatedly finds the first `**bold**`
(`/\*\*(.+?)\*\*/`) or `*italic*`
(`/(?<!\*)\*(?!\*)(.+?)(?<!\*)\*(?!\*)/`) match of the remaining text,
emits the text before it and the formatted part, and continues on the
text after the match.  The embedding models the two regex searches
exactly (lazy content, `.` excluding newline, the four lookarounds of the
italic pattern) and runs the loop on fuel; the termination claim is that
`length + 1` units of fuel always complete the loop. -/

/-- A piece of the rendered output: plain span, bold, or italic. -/
inductive Part where
  | span (s : List Char)
  | bold (s : List Char)
  | em (s : List Char)
deriving DecidableEq, Repr

/-- Which pattern matched. -/
inductive MatchType where
  | bold
  | italic
deriving DecidableEq, Repr

/-- Lazy scan for the closing `**` of a bold match: `acc` is the reversed
content so far (nonempty); the minimal extension whose next two characters
are `**` closes the match, newline stops it (`.` does not match `\n`). -/
def goBold (acc : List Char) : List Char → Option (List Char)
  | '*' :: '*' :: _ => some acc.reverse
  | c :: rest => if c = '\n' then none else goBold (c :: acc) rest
  | [] => none

/-- A head match of `/\*\*(.+?)\*\*/`: returns the captured content. -/
def matchBoldAt : List Char → Option (List Char)
  | '*' :: '*' :: c :: rest => if c = '\n' then none else goBold [c] rest
  | _ => none

/-- Lazy scan for the closing `*` of an italic match: a `*` closes only
when the previous content character (head of `acc`) is not `*`
(lookbehind `(?<!\*)`) and the next character is not `*` (lookahead
`(?!\*)`); otherwise the `*` is consumed as content. -/
def goItalic (acc : List Char) : List Char → Option (List Char)
  | '*' :: rest =>
      if acc.head? ≠ some '*' ∧ rest.head? ≠ some '*' then some acc.reverse
      else goItalic ('*' :: acc) rest
  | c :: rest => if c = '\n' then none else goItalic (c :: acc) rest
  | [] => none

/-- A head match of `/(?<!\*)\*(?!\*)(.+?)(?<!\*)\*(?!\*)/` at a position
whose preceding character is `prev`: returns the captured content. -/
def matchItalicAt (prev : Option Char) : List Char → Option (List Char)
  | '*' :: rest =>
      if prev = some '*' then none
      else
        match rest with
        | '*' :: _ => none
        | c :: rest2 => if c = '\n' then none else goItalic [c] rest2
        | [] => none
  | _ => none

/-- Leftmost bold match: `(index, content)`. -/
def findBold : List Char → Option (Nat × List Char)
  | [] => none
  | c :: rest =>
      match matchBoldAt (c :: rest) with
      | some content => some (0, content)
      | none => (findBold rest).map (fun p => (p.1 + 1, p.2))

/-- Leftmost italic match from a position preceded by `prev`. -/
def findItalicAux (prev : Option Char) : List Char → Option (Nat × List Char)
  | [] => none
  | c :: rest =>
      match matchItalicAt prev (c :: rest) with
      | some content => some (0, content)
      | none => (findItalicAux (some c) rest).map (fun p => (p.1 + 1, p.2))

/-- Leftmost italic match: `(index, content)`. -/
def findItalic (s : List Char) : Option (Nat × List Char) :=
  findItalicAux none s

/-- The selection of `App.js` lines 81–99: of the two candidate matches,
pick the earlier one, bold winning ties; returns
`(index, full match length, content, type)` (the bold match `**c**` has
length `|c| + 4`, the italic match `*c*` length `|c| + 2`). -/
def pickMatch (s : List Char) : Option (Nat × Nat × List Char × MatchType) :=
  match findBold s, findItalic s with
  | some (bi, bc), some (ii, ic) =>
      if bi ≤ ii then some (bi, bc.length + 4, bc, .bold)
      else some (ii, ic.length + 2, ic, .italic)
  | some (bi, bc), none => some (bi, bc.length + 4, bc, .bold)
  | none, some (ii, ic) => some (ii, ic.length + 2, ic, .italic)
  | none, none => none

/-- One rendered part for a match type. -/
def partOf : MatchType → List Char → Part
  | .bold, c => Part.bold c
  | .italic, c => Part.em c

/-- The `while (remaining.length > 0)` loop of `App.js` lines 76–124 on
explicit fuel; `none` means the fuel ran out. -/
def renderLoop : Nat → List Char → Option (List Part)
  | 0, _ => none
  | fuel + 1, remaining =>
      if remaining.isEmpty then some []
      else
        match pickMatch remaining with
        | some (i, len, content, t) =>
            let before := remaining.take i
            (renderLoop fuel (remaining.drop (i + len))).map (fun ps =>
              (if before.isEmpty then [] else [Part.span before]) ++ partOf t content :: ps)
        | none => some [Part.span remaining]

/-- `renderInlineFormatting` itself: run the loop with enough fuel. -/
def renderInlineFormatting (text : List Char) : List Part :=
  (renderLoop (text.length + 1) text).getD []

/-! ## Terrain cache (spec §4.8, §3 `CacheEntry`)

The Python backend implementing the cache is not part of the provided
sources; the model below follows the spec's lookup-or-fetch contract. -/

/-- Modelled from the spec: a `CacheEntry` of the backend terrain cache
(`{key, value, created_at, ttl=1h}`), the value being the fused terrain
bundle, opaque here. -/
structure CacheEntry (α : Type) where
  value : α
  created_at : Nat
deriving DecidableEq, Repr

/-- Modelled from the spec: the 1-hour TTL, in seconds. -/
def cacheTTL : Nat := 3600

/-- Modelled from the spec: the cache store, keyed by the `AnalysisArea`
identity (the rounded `(center, radius)` pair, rendered as a key string). -/
abbrev Cache (α : Type) : Type := List (String × CacheEntry α)

/-- Lookup of a key in the cache store. -/
def cacheLookup {α : Type} (c : Cache α) (k : String) : Option (CacheEntry α) :=
  (c.find? (fun p => p.1 == k)).map Prod.snd

/-- Store a fresh entry under a key, replacing any previous entry of the
same key. -/
def cacheStore {α : Type} (c : Cache α) (k : String) (e : CacheEntry α) : Cache α :=
  (k, e) :: c.filter (fun p => !(p.1 == k))

/-- Modelled from the spec: the `analyze` lookup-or-fetch contract of the
Terrain Cache (§4.8): return the cached bundle if present with age
`< 1` hour, else run the fetch pipeline (its result is the `fetch`
argument), store it under the key and return it.  The boolean reports
whether a new fetch was performed. -/
def cacheAnalyze {α : Type} (c : Cache α) (k : String) (now : Nat) (fetch : α) :
    CacheEntry α × Cache α × Bool :=
  match cacheLookup c k with
  | some e =>
      if now - e.created_at < cacheTTL then (e, c, false)
      else
        let e2 : CacheEntry α := ⟨fetch, now⟩
        (e2, cacheStore c k e2, true)
  | none =>
      let e2 : CacheEntry α := ⟨fetch, now⟩
      (e2, cacheStore c k e2, true)

/-! ## Scenario detector (spec §4.7)

The Python backend implementing the detector is not part of the provided
sources; the model below follows the spec: keyword sets per class,
highest score wins, ties broken by the fixed priority
defensive > offensive > stability > reconnaissance, and reconnaissance
when nothing matches. -/

/-- The four scenario classes (spec §3 `ScenarioContext`). -/
inductive Scenario where
  | defensive
  | offensive
  | stability
  | reconnaissance
deriving DecidableEq, Repr, Fintype

/-- Modelled from the spec: the defensive keyword set (the spec fixes only
the examples; the set contains the terms its examples exercise). -/
def defensiveKeywords : List String :=
  ["defend", "defensive", "engagement area", "battle position", "strongpoint"]

/-- Modelled from the spec: the offensive keyword set. -/
def offensiveKeywords : List String :=
  ["attack", "offensive", "breach", "assault", "obstacle belt"]

/-- Modelled from the spec: the stability keyword set. -/
def stabilityKeywords : List String :=
  ["stability", "patrol", "checkpoint", "civil support"]

/-- Modelled from the spec: the reconnaissance keyword set. -/
def reconnaissanceKeywords : List String :=
  ["reconnaissance", "recon", "scout", "surveillance"]

/-- Number of keywords of a set that occur in the message. -/
def keywordScore (msg : String) (kws : List String) : Nat :=
  (kws.filter (fun kw => listIncludes kw.toList msg.toList)).length

/-- The keyword set of a class. -/
def keywordsOf : Scenario → List String
  | .defensive => defensiveKeywords
  | .offensive => offensiveKeywords
  | .stability => stabilityKeywords
  | .reconnaissance => reconnaissanceKeywords

/-- The score of a class on a message. -/
def scenarioScore (msg : String) (c : Scenario) : Nat :=
  keywordScore msg (keywordsOf c)

/-- The fixed tie-break priority (smaller is stronger):
defensive > offensive > stability > reconnaissance. -/
def scenarioPriority : Scenario → Nat
  | .defensive => 0
  | .offensive => 1
  | .stability => 2
  | .reconnaissance => 3

/-- Modelled from the spec: the Scenario Detector — defaults to
reconnaissance when no keyword of any class matches, otherwise picks the
highest-scoring class, ties resolved by the priority order. -/
def detectScenario (msg : String) : Scenario :=
  let sd := scenarioScore msg .defensive
  let so := scenarioScore msg .offensive
  let ss := scenarioScore msg .stability
  let sr := scenarioScore msg .reconnaissance
  if sd = 0 ∧ so = 0 ∧ ss = 0 ∧ sr = 0 then .reconnaissance
  else if so ≤ sd ∧ ss ≤ sd ∧ sr ≤ sd then .defensive
  else if ss ≤ so ∧ sr ≤ so then .offensive
  else if sr ≤ ss then .stability
  else .reconnaissance

/-! ## Helper lemmas -/

/-- `toList` distributes over string append. -/
theorem toList_append (a b : String) : (a ++ b).toList = a.toList ++ b.toList := by
  cases a
  cases b
  rfl

/-- An infix of the tail of an append is an infix of the append. -/
theorem infix_tail {x r : List Char} (a : List Char) (h : x <:+: r) : x <:+: a ++ r := by
  obtain ⟨s, t, rfl⟩ := h
  exact ⟨a ++ s, t, by simp [List.append_assoc]⟩

/-- An infix of the head of an append is an infix of the append. -/
theorem infix_extend {x a : List Char} (b : List Char) (h : x <:+: a) : x <:+: a ++ b := by
  obtain ⟨s, t, rfl⟩ := h
  exact ⟨s, t ++ b, by simp [List.append_assoc]⟩

/-- A piece straddling the boundary of two leading segments is an infix:
if `s ++ x` rebuilds `l₁ ++ l₂` then `x` is an infix of `l₁ ++ (l₂ ++ r)`. -/
theorem infix_mid {x l₁ l₂ : List Char} (r s : List Char) (h : s ++ x = l₁ ++ l₂) :
    x <:+: l₁ ++ (l₂ ++ r) := by
  refine ⟨s, r, ?_⟩
  rw [← List.append_assoc, h, List.append_assoc]

/-- The three-segment version of `infix_mid`. -/
theorem infix_mid3 {x l₁ l₂ l₃ : List Char} (r s : List Char)
    (h : s ++ x = l₁ ++ l₂ ++ l₃) : x <:+: l₁ ++ (l₂ ++ (l₃ ++ r)) := by
  refine ⟨s, r, ?_⟩
  rw [← List.append_assoc, h, List.append_assoc, List.append_assoc]

/-- Every member of a comma-joined list occurs in the joined string. -/
theorem mem_infix_joinComma (f : String) :
    ∀ l : List String, f ∈ l → f.toList <:+: (joinComma l).toList
  | [], h => absurd h (List.not_mem_nil f)
  | [x], h => by
      rcases List.mem_singleton.mp h with rfl
      exact List.infix_rfl
  | x :: y :: rest, h => by
      rcases List.mem_cons.mp h with rfl | h2
      · simp only [joinComma, toList_append, List.append_assoc]
        exact ⟨[], _, rfl⟩
      · simp only [joinComma, toList_append, List.append_assoc]
        exact infix_tail _ (infix_tail _ (mem_infix_joinComma f (y :: rest) h2))

/-- Any match `pickMatch` reports has positive full length. -/
theorem pickMatch_pos {s : List Char} {i len : Nat} {content : List Char} {t : MatchType}
    (h : pickMatch s = some (i, len, content, t)) : 0 < len := by
  unfold pickMatch at h
  split at h
  · split at h <;> (simp only [Option.some.injEq, Prod.mk.injEq] at h; omega)
  · simp only [Option.some.injEq, Prod.mk.injEq] at h; omega
  · simp only [Option.some.injEq, Prod.mk.injEq] at h; omega
  · cases h

/-- Fuel one larger than the remaining length always completes the loop:
each iteration either exits or consumes at least one character. -/
theorem renderLoop_isSome :
    ∀ (fuel : Nat) (s : List Char), s.length < fuel → (renderLoop fuel s).isSome = true := by
  intro fuel
  induction fuel with
  | zero => exact fun s h => absurd h (Nat.not_lt_zero _)
  | succ n ih =>
    intro s h
    rw [renderLoop]
    by_cases he : s.isEmpty
    · simp [he]
    · cases hp : pickMatch s with
      | none => simp [he, hp]
      | some q =>
        obtain ⟨i, len, content, t⟩ := q
        have hlen := pickMatch_pos hp
        have hsne : s.length ≠ 0 := by
          intro h0
          rw [List.length_eq_zero] at h0
          subst h0
          exact he rfl
        have hrec : (s.drop (i + len)).length < n := by
          rw [List.length_drop]
          omega
        simp only [he, Bool.false_eq_true, if_false, hp]
        obtain ⟨ps, hps⟩ := Option.isSome_iff_exists.mp (ih _ hrec)
        rw [hps]
        rfl

/-- C8: `renderInlineFormatting` terminates on every finite input: the
fueled loop completes within `length + 1` iterations (so the function is
total and returns a finite list of parts), because every reported
bold/italic match has positive length and each loop step strictly
shrinks the remaining text. -/
theorem C8_renderInlineFormatting_total :
    (∀ s : List Char, ∃ ps : List Part,
        renderLoop (s.length + 1) s = some ps ∧ renderInlineFormatting s = ps)
    ∧ (∀ (s : List Char) (i len : Nat) (content : List Char) (t : MatchType),
        pickMatch s = some (i, len, content, t) →
        0 < len ∧ (s.drop (i + len)).length < s.length) := by
  constructor
  · intro s
    have h := renderLoop_isSome (s.length + 1) s (Nat.lt_succ_self _)
    obtain ⟨ps, hps⟩ := Option.isSome_iff_exists.mp h
    exact ⟨ps, hps, by simp [renderInlineFormatting, hps]⟩
  · intro s i len content t h
    have hlen := pickMatch_pos h
    have hsne : s ≠ [] := by
      intro h0
      subst h0
      cases h
    refine ⟨hlen, ?_⟩
    rw [List.length_drop]
    have : 0 < s.length := List.length_pos.mpr hsne
    omega

/-- C8 witness: a concrete loop step — on `"a **b**"` the picked match is
the bold one at index 2 of length 5, which strictly shrinks the text. -/
theorem C8_witness :
    0 < 5 ∧ ("a **b**".toList.drop (2 + 5)).length < "a **b**".toList.length :=
  C8_renderInlineFormatting_total.2 "a **b**".toList 2 5 ['b'] MatchType.bold (by decide)

/-- Evaluation of `bftVal` on each bucket of the scale. -/
theorem bftVal_eq0 {q : ℚ} (h : q < 1) : bftVal q = 0 := by
  unfold bftVal; rw [if_pos h]

theorem bftVal_eq1 {q : ℚ} (h1 : 1 ≤ q) (h2 : q ≤ 5) : bftVal q = 1 := by
  unfold bftVal; rw [if_neg (by linarith), if_pos h2]

theorem bftVal_eq2 {q : ℚ} (h1 : 5 < q) (h2 : q ≤ 11) : bftVal q = 2 := by
  unfold bftVal; rw [if_neg (by linarith), if_neg (by linarith), if_pos h2]

theorem bftVal_eq3 {q : ℚ} (h1 : 11 < q) (h2 : q ≤ 19) : bftVal q = 3 := by
  unfold bftVal
  rw [if_neg (by linarith), if_neg (by linarith), if_neg (by linarith), if_pos h2]

theorem bftVal_eq4 {q : ℚ} (h1 : 19 < q) (h2 : q ≤ 28) : bftVal q = 4 := by
  unfold bftVal
  rw [if_neg (by linarith), if_neg (by linarith), if_neg (by linarith),
    if_neg (by linarith), if_pos h2]

theorem bftVal_eq5 {q : ℚ} (h1 : 28 < q) (h2 : q ≤ 38) : bftVal q = 5 := by
  unfold bftVal
  rw [if_neg (by linarith), if_neg (by linarith), if_neg (by linarith),
    if_neg (by linarith), if_neg (by linarith), if_pos h2]

theorem bftVal_eq6 {q : ℚ} (h1 : 38 < q) (h2 : q ≤ 49) : bftVal q = 6 := by
  unfold bftVal
  rw [if_neg (by linarith), if_neg (by linarith), if_neg (by linarith),
    if_neg (by linarith), if_neg (by linarith), if_neg (by linarith), if_pos h2]

theorem bftVal_eq7 {q : ℚ} (h1 : 49 < q) (h2 : q ≤ 61) : bftVal q = 7 := by
  unfold bftVal
  rw [if_neg (by linarith), if_neg (by linarith), if_neg (by linarith),
    if_neg (by linarith), if_neg (by linarith), if_neg (by linarith),
    if_neg (by linarith), if_pos h2]

theorem bftVal_eq8 {q : ℚ} (h1 : 61 < q) (h2 : q ≤ 74) : bftVal q = 8 := by
  unfold bftVal
  rw [if_neg (by linarith), if_neg (by linarith), if_neg (by linarith),
    if_neg (by linarith), if_neg (by linarith), if_neg (by linarith),
    if_neg (by linarith), if_neg (by linarith), if_pos h2]

theorem bftVal_eq9 {q : ℚ} (h1 : 74 < q) (h2 : q ≤ 88) : bftVal q = 9 := by
  unfold bftVal
  rw [if_neg (by linarith), if_neg (by linarith), if_neg (by linarith),
    if_neg (by linarith), if_neg (by linarith), if_neg (by linarith),
    if_neg (by linarith), if_neg (by linarith), if_neg (by linarith), if_pos h2]

theorem bftVal_eq10 {q : ℚ} (h1 : 88 < q) (h2 : q ≤ 102) : bftVal q = 10 := by
  unfold bftVal
  rw [if_neg (by linarith), if_neg (by linarith), if_neg (by linarith),
    if_neg (by linarith), if_neg (by linarith), if_neg (by linarith),
    if_neg (by linarith), if_neg (by linarith), if_neg (by linarith),
    if_neg (by linarith), if_pos h2]

theorem bftVal_eq11 {q : ℚ} (h1 : 102 < q) (h2 : q ≤ 117) : bftVal q = 11 := by
  unfold bftVal
  rw [if_neg (by linarith), if_neg (by linarith), if_neg (by linarith),
    if_neg (by linarith), if_neg (by linarith), if_neg (by linarith),
    if_neg (by linarith), if_neg (by linarith), if_neg (by linarith),
    if_neg (by linarith), if_neg (by linarith), if_pos h2]

theorem bftVal_eq12 {q : ℚ} (h1 : 117 < q) : bftVal q = 12 := by
  unfold bftVal
  rw [if_neg (by linarith), if_neg (by linarith), if_neg (by linarith),
    if_neg (by linarith), if_neg (by linarith), if_neg (by linarith),
    if_neg (by linarith), if_neg (by linarith), if_neg (by linarith),
    if_neg (by linarith), if_neg (by linarith), if_neg (by linarith)]

/-- Cumulative upper bounds: below the `k`-th threshold the value is at
most `k`. -/
theorem bftVal_le1 {q : ℚ} (h : q ≤ 5) : bftVal q ≤ 1 := by
  rcases lt_or_le q 1 with h0 | h0
  · rw [bftVal_eq0 h0]; omega
  · rw [bftVal_eq1 h0 h]

theorem bftVal_le2 {q : ℚ} (h : q ≤ 11) : bftVal q ≤ 2 := by
  rcases le_or_lt q 5 with h0 | h0
  · exact le_trans (bftVal_le1 h0) (by omega)
  · rw [bftVal_eq2 h0 h]

theorem bftVal_le3 {q : ℚ} (h : q ≤ 19) : bftVal q ≤ 3 := by
  rcases le_or_lt q 11 with h0 | h0
  · exact le_trans (bftVal_le2 h0) (by omega)
  · rw [bftVal_eq3 h0 h]

theorem bftVal_le4 {q : ℚ} (h : q ≤ 28) : bftVal q ≤ 4 := by
  rcases le_or_lt q 19 with h0 | h0
  · exact le_trans (bftVal_le3 h0) (by omega)
  · rw [bftVal_eq4 h0 h]

theorem bftVal_le5 {q : ℚ} (h : q ≤ 38) : bftVal q ≤ 5 := by
  rcases le_or_lt q 28 with h0 | h0
  · exact le_trans (bftVal_le4 h0) (by omega)
  · rw [bftVal_eq5 h0 h]

theorem bftVal_le6 {q : ℚ} (h : q ≤ 49) : bftVal q ≤ 6 := by
  rcases le_or_lt q 38 with h0 | h0
  · exact le_trans (bftVal_le5 h0) (by omega)
  · rw [bftVal_eq6 h0 h]

theorem bftVal_le7 {q : ℚ} (h : q ≤ 61) : bftVal q ≤ 7 := by
  rcases le_or_lt q 49 with h0 | h0
  · exact le_trans (bftVal_le6 h0) (by omega)
  · rw [bftVal_eq7 h0 h]

theorem bftVal_le8 {q : ℚ} (h : q ≤ 74) : bftVal q ≤ 8 := by
  rcases le_or_lt q 61 with h0 | h0
  · exact le_trans (bftVal_le7 h0) (by omega)
  · rw [bftVal_eq8 h0 h]

theorem bftVal_le9 {q : ℚ} (h : q ≤ 88) : bftVal q ≤ 9 := by
  rcases le_or_lt q 74 with h0 | h0
  · exact le_trans (bftVal_le8 h0) (by omega)
  · rw [bftVal_eq9 h0 h]

theorem bftVal_le10 {q : ℚ} (h : q ≤ 102) : bftVal q ≤ 10 := by
  rcases le_or_lt q 88 with h0 | h0
  · exact le_trans (bftVal_le9 h0) (by omega)
  · rw [bftVal_eq10 h0 h]

theorem bftVal_le11 {q : ℚ} (h : q ≤ 117) : bftVal q ≤ 11 := by
  rcases le_or_lt q 102 with h0 | h0
  · exact le_trans (bftVal_le10 h0) (by omega)
  · rw [bftVal_eq11 h0 h]

/-- The scale never exceeds 12. -/
theorem bftVal_le12 (q : ℚ) : bftVal q ≤ 12 := by
  rcases le_or_lt q 117 with h0 | h0
  · exact le_trans (bftVal_le11 h0) (by omega)
  · rw [bftVal_eq12 h0]

/-- The scale is monotone non-decreasing. -/
theorem bftVal_mono {a b : ℚ} (hab : a ≤ b) : bftVal a ≤ bftVal b := by
  rcases lt_or_le b 1 with hb | hb
  · rw [bftVal_eq0 hb, bftVal_eq0 (lt_of_le_of_lt hab hb)]
  rcases le_or_lt b 5 with hb1 | hb1
  · rw [bftVal_eq1 hb hb1]; exact bftVal_le1 (le_trans hab hb1)
  rcases le_or_lt b 11 with hb2 | hb2
  · rw [bftVal_eq2 hb1 hb2]; exact bftVal_le2 (le_trans hab hb2)
  rcases le_or_lt b 19 with hb3 | hb3
  · rw [bftVal_eq3 hb2 hb3]; exact bftVal_le3 (le_trans hab hb3)
  rcases le_or_lt b 28 with hb4 | hb4
  · rw [bftVal_eq4 hb3 hb4]; exact bftVal_le4 (le_trans hab hb4)
  rcases le_or_lt b 38 with hb5 | hb5
  · rw [bftVal_eq5 hb4 hb5]; exact bftVal_le5 (le_trans hab hb5)
  rcases le_or_lt b 49 with hb6 | hb6
  · rw [bftVal_eq6 hb5 hb6]; exact bftVal_le6 (le_trans hab hb6)
  rcases le_or_lt b 61 with hb7 | hb7
  · rw [bftVal_eq7 hb6 hb7]; exact bftVal_le7 (le_trans hab hb7)
  rcases le_or_lt b 74 with hb8 | hb8
  · rw [bftVal_eq8 hb7 hb8]; exact bftVal_le8 (le_trans hab hb8)
  rcases le_or_lt b 88 with hb9 | hb9
  · rw [bftVal_eq9 hb8 hb9]; exact bftVal_le9 (le_trans hab hb9)
  rcases le_or_lt b 102 with hb10 | hb10
  · rw [bftVal_eq10 hb9 hb10]; exact bftVal_le10 (le_trans hab hb10)
  rcases le_or_lt b 117 with hb11 | hb11
  · rw [bftVal_eq11 hb10 hb11]; exact bftVal_le11 (le_trans hab hb11)
  · rw [bftVal_eq12 hb11]; exact bftVal_le12 a

/-- C6: `kmhToBeaufort` is `null` exactly on `null`, lands in `0..12` on
every number, and is monotone non-decreasing. -/
theorem C6_kmhToBeaufort :
    kmhToBeaufort none = none
    ∧ (∀ q : ℚ, ∃ n : Nat, kmhToBeaufort (some q) = some n ∧ n ≤ 12)
    ∧ (∀ a b : ℚ, a ≤ b → ∀ m n : Nat,
        kmhToBeaufort (some a) = some m → kmhToBeaufort (some b) = some n → m ≤ n) := by
  refine ⟨rfl, ?_, ?_⟩
  · exact fun q => ⟨bftVal q, rfl, bftVal_le12 q⟩
  · intro a b hab m n hm hn
    simp only [kmhToBeaufort, Option.some.injEq] at hm hn
    subst hm
    subst hn
    exact bftVal_mono hab

/-- C6 witness: the scale at 3 and 40 km/h, with monotonicity applied. -/
theorem C6_witness :
    (3 : ℚ) ≤ 40 ∧ kmhToBeaufort (some 3) = some 1
    ∧ kmhToBeaufort (some 40) = some 6 ∧ 1 ≤ 6 :=
  ⟨by norm_num, by decide, by decide,
    C6_kmhToBeaufort.2.2 3 40 (by norm_num) 1 6 (by decide) (by decide)⟩

/-- C9: a whitespace-only input makes `handleSendMessage` return at once:
no message appended, no endpoint requested, the state untouched. -/
theorem C9_blank_input_noop (st : AppState) (backend : Backend)
    (h : jsTrim st.inputValue = "") :
    handleSendMessage st backend = (st, none) := by
  unfold handleSendMessage
  rw [if_pos h]

/-- C9 witness: a three-space input on a concrete state. -/
theorem C9_witness :
    handleSendMessage ⟨[], "   ", false⟩ ⟨AnalyzeResponse.netError, ChatResponse.netError⟩ =
      (⟨[], "   ", false⟩, none) :=
  C9_blank_input_noop _ _ (by decide)

/-- The DMS form of the spec's example coordinate `48°51'24"N 2°21'08"E`,
written out character by character. -/
def dmsExample : List Char :=
  ['4', '8', '°', '5', '1', '\'', '2', '4', '"', 'N', ' ',
   '2', '°', '2', '1', '\'', '0', '8', '"', 'E']

/-- C1: the routing predicate `/\d{1,3}\.\d{4,}/` accepts the decimal and
labelled notations but rejects the DMS notation, so a DMS message is
routed to the `/chat` endpoint, not to `/analyze_coordinates` — contrary
to the documented "decimal, DMS, or labelled" automatic routing. -/
theorem C1_dms_not_routed :
    coordTest "48.8566, 2.3522".toList = true
    ∧ coordTest "lat: 48.8566 lon: 2.3522".toList = true
    ∧ coordTest dmsExample = false
    ∧ ∀ backend : Backend,
        (handleSendMessage ⟨[], String.mk dmsExample, false⟩ backend).2 =
          some Endpoint.chat := by
  refine ⟨by decide, by decide, by decide, ?_⟩
  intro backend
  obtain ⟨ha, hc⟩ := backend
  simp only [handleSendMessage]
  rw [if_neg (by decide)]
  have : coordTest (String.mk dmsExample).toList = false := by decide
  rw [this]
  cases hc <;> rfl

/-- A fresh store is found by the next lookup of the same key. -/
theorem cacheLookup_store {α : Type} (c : Cache α) (k : String) (e : CacheEntry α) :
    cacheLookup (cacheStore c k e) k = some e := by
  simp [cacheLookup, cacheStore, List.find?]

/-- A `cacheAnalyze` call that reports a fetch stored the freshly fetched
entry, stamped with the call time. -/
theorem cacheAnalyze_fetched {α : Type} (c : Cache α) (k : String) (t0 : Nat) (v0 : α)
    (hf : (cacheAnalyze c k t0 v0).2.2 = true) :
    cacheAnalyze c k t0 v0 =
      (⟨v0, t0⟩, cacheStore c k ⟨v0, t0⟩, true) := by
  unfold cacheAnalyze at hf ⊢
  cases h : cacheLookup c k with
  | none => rfl
  | some e =>
    by_cases hfresh : t0 - e.created_at < cacheTTL
    · exfalso
      simp [h, hfresh] at hf
    · simp [hfresh]

/-- C4: after an `analyze` call that fetched, a second call for the same
area identity strictly inside the TTL window returns the same cached
bundle with the `created_at` of the first call and performs no fetch and
no store; once the age reaches the TTL, the next call fetches anew,
stores the result under the same key, and `created_at` advances. -/
theorem C4_cache_ttl {α : Type} (c : Cache α) (k : String) (t0 t1 : Nat) (v0 v1 : α)
    (h01 : t0 ≤ t1) (hf : (cacheAnalyze c k t0 v0).2.2 = true) :
    (t1 - t0 < cacheTTL →
      cacheAnalyze (cacheAnalyze c k t0 v0).2.1 k t1 v1 =
        ((cacheAnalyze c k t0 v0).1, (cacheAnalyze c k t0 v0).2.1, false)
      ∧ (cacheAnalyze c k t0 v0).1.created_at = t0)
    ∧ (cacheTTL ≤ t1 - t0 →
      cacheAnalyze (cacheAnalyze c k t0 v0).2.1 k t1 v1 =
        (⟨v1, t1⟩, cacheStore (cacheAnalyze c k t0 v0).2.1 k ⟨v1, t1⟩, true)
      ∧ (cacheAnalyze c k t0 v0).1.created_at < t1) := by
  have h0 := cacheAnalyze_fetched c k t0 v0 hf
  rw [h0]
  dsimp only
  constructor
  · intro hfresh
    refine ⟨?_, rfl⟩
    unfold cacheAnalyze
    rw [cacheLookup_store]
    dsimp only
    rw [if_pos hfresh]
  · intro hexp
    have hTTLpos : 0 < cacheTTL := by decide
    refine ⟨?_, by omega⟩
    unfold cacheAnalyze
    rw [cacheLookup_store]
    dsimp only
    rw [if_neg (by omega)]

/-- C4 witness: concrete fresh and expired re-lookups on an empty cache. -/
theorem C4_witness :
    (cacheAnalyze (cacheAnalyze ([] : Cache Nat) "k" 0 7).2.1 "k" 1000 8 =
        ((cacheAnalyze ([] : Cache Nat) "k" 0 7).1,
          (cacheAnalyze ([] : Cache Nat) "k" 0 7).2.1, false)
      ∧ (cacheAnalyze ([] : Cache Nat) "k" 0 7).1.created_at = 0)
    ∧ (cacheAnalyze (cacheAnalyze ([] : Cache Nat) "k" 0 7).2.1 "k" 4000 8 =
        (⟨8, 4000⟩, cacheStore (cacheAnalyze ([] : Cache Nat) "k" 0 7).2.1 "k" ⟨8, 4000⟩, true)
      ∧ (cacheAnalyze ([] : Cache Nat) "k" 0 7).1.created_at < 4000) :=
  ⟨(C4_cache_ttl [] "k" 0 1000 7 8 (by omega) (by decide)).1 (by decide),
   (C4_cache_ttl [] "k" 0 4000 7 8 (by omega) (by decide)).2 (by decide)⟩

/-- C5: the detector returns reconnaissance when no keyword of any class
matches; otherwise it returns a class of maximal score, and among the
classes tied at that score it has the strongest fixed priority
(defensive > offensive > stability > reconnaissance). -/
theorem C5_scenario_detector (msg : String) :
    ((∀ c : Scenario, scenarioScore msg c = 0) → detectScenario msg = .reconnaissance)
    ∧ (∀ c : Scenario, scenarioScore msg c ≤ scenarioScore msg (detectScenario msg))
    ∧ ((¬ ∀ c : Scenario, scenarioScore msg c = 0) →
        ∀ c : Scenario, scenarioScore msg c = scenarioScore msg (detectScenario msg) →
          scenarioPriority (detectScenario msg) ≤ scenarioPriority c) := by
  simp only [detectScenario]
  split_ifs with h0 h1 h2 h3
  · refine ⟨fun _ => rfl, fun c => ?_, fun hnz => absurd ?_ hnz⟩
    · cases c <;> omega
    · intro c
      cases c <;> omega
  · refine ⟨fun hz => ?_, fun c => ?_, fun _ c hc => ?_⟩
    · exfalso
      have hd := hz .defensive
      have ho := hz .offensive
      have hs := hz .stability
      have hr := hz .reconnaissance
      exact h0 ⟨hd, ho, hs, hr⟩
    · cases c
      · exact le_refl _
      · exact h1.1
      · exact h1.2.1
      · exact h1.2.2
    · cases c <;> simp [scenarioPriority]
  · refine ⟨fun hz => ?_, fun c => ?_, fun _ c hc => ?_⟩
    · exfalso
      exact h0 ⟨hz .defensive, hz .offensive, hz .stability, hz .reconnaissance⟩
    · cases c <;> omega
    · revert hc
      cases c <;> (intro hc; simp only [scenarioPriority]) <;> omega
  · refine ⟨fun hz => ?_, fun c => ?_, fun _ c hc => ?_⟩
    · exfalso
      exact h0 ⟨hz .defensive, hz .offensive, hz .stability, hz .reconnaissance⟩
    · cases c <;> omega
    · revert hc
      cases c <;> (intro hc; simp only [scenarioPriority]) <;> omega
  · refine ⟨fun hz => rfl, fun c => ?_, fun _ c hc => ?_⟩
    · cases c <;> omega
    · revert hc
      cases c <;> (intro hc; simp only [scenarioPriority]) <;> omega

/-- C5 witness: the three applications on concrete messages — the spec's
defensive and offensive examples and a keyword-free default. -/
theorem C5_witness :
    detectScenario "hello there" = Scenario.reconnaissance
    ∧ scenarioScore "where can we breach the obstacle belt" Scenario.defensive ≤
        scenarioScore "where can we breach the obstacle belt"
          (detectScenario "where can we breach the obstacle belt")
    ∧ scenarioPriority (detectScenario "defend the ridge, engagement area") ≤
        scenarioPriority Scenario.defensive :=
  ⟨(C5_scenario_detector "hello there").1 (by decide),
   (C5_scenario_detector "where can we breach the obstacle belt").2.1 Scenario.defensive,
   (C5_scenario_detector "defend the ridge, engagement area").2.2 (by decide)
     Scenario.defensive (by decide)⟩

/-- C7: when the requested endpoint answers with a non-success result,
`handleSendMessage` appends a system message flagged as an error whose
text carries the backend's error string, and the user's original message
stays in the conversation history. -/
theorem C7_errors_surfaced (st : AppState) (backend : Backend) (e : String)
    (hne : ¬(jsTrim st.inputValue = ""))
    (h : (coordTest st.inputValue.toList = true ∧ backend.analyze = .failure e) ∨
         (coordTest st.inputValue.toList = false ∧ backend.chat = .failure e)) :
    (handleSendMessage st backend).1.messages =
      st.messages ++ [⟨"user", st.inputValue, false, none⟩, backendErrorMessage e]
    ∧ (backendErrorMessage e).role = "system"
    ∧ (backendErrorMessage e).isError = true
    ∧ e.toList <:+ (backendErrorMessage e).text.toList
    ∧ (⟨"user", st.inputValue, false, none⟩ : Message) ∈
        (handleSendMessage st backend).1.messages := by
  have hmsg : (handleSendMessage st backend).1.messages =
      st.messages ++ [⟨"user", st.inputValue, false, none⟩, backendErrorMessage e] := by
    simp only [handleSendMessage]
    rcases h with ⟨hc, hr⟩ | ⟨hc, hr⟩ <;> rw [if_neg hne, hc, hr] <;> simp
  refine ⟨hmsg, rfl, rfl, ?_, ?_⟩
  · exact ⟨"Error: ".toList, (toList_append "Error: " e).symm⟩
  · rw [hmsg]
    simp

/-- C7 witness: a failing `/analyze_coordinates` call on a concrete
coordinate message. -/
theorem C7_witness :
    (handleSendMessage ⟨[], "48.8566, 2.3522", false⟩
        ⟨AnalyzeResponse.failure "boom", ChatResponse.netError⟩).1.messages =
      [] ++ [⟨"user", "48.8566, 2.3522", false, none⟩, backendErrorMessage "boom"]
    ∧ (backendErrorMessage "boom").role = "system"
    ∧ (backendErrorMessage "boom").isError = true
    ∧ "boom".toList <:+ (backendErrorMessage "boom").text.toList
    ∧ (⟨"user", "48.8566, 2.3522", false, none⟩ : Message) ∈
        (handleSendMessage ⟨[], "48.8566, 2.3522", false⟩
          ⟨AnalyzeResponse.failure "boom", ChatResponse.netError⟩).1.messages :=
  C7_errors_surfaced ⟨[], "48.8566, 2.3522", false⟩
    ⟨AnalyzeResponse.failure "boom", ChatResponse.netError⟩ "boom"
    (by decide) (Or.inl ⟨by decide, rfl⟩)

/-- C10: a selection containing any disallowed file name is rejected as a
whole — one system error message is appended whose text lists every
invalid name, and no upload request is issued for any file of the
selection. -/
theorem C10_invalid_selection_rejected (files : List String)
    (resp : String → UploadResponse) (msgs : List Message)
    (hbad : ∃ f ∈ files, isAllowedFile f = false) :
    handleFileUpload files resp msgs =
      (msgs ++ [invalidFilesMessage (files.filter (fun f => !(isAllowedFile f)))], [])
    ∧ (invalidFilesMessage (files.filter (fun f => !(isAllowedFile f)))).isError = true
    ∧ ∀ f ∈ files, isAllowedFile f = false →
        f.toList <:+:
          (invalidFilesMessage (files.filter (fun f => !(isAllowedFile f)))).text.toList := by
  obtain ⟨f0, hf0mem, hf0⟩ := hbad
  cases files with
  | nil => cases hf0mem
  | cons a as =>
    have hmem0 : f0 ∈ (a :: as).filter (fun f => !(isAllowedFile f)) :=
      List.mem_filter.mpr ⟨hf0mem, by rw [hf0]; rfl⟩
    have hpos : 0 < ((a :: as).filter (fun f => !(isAllowedFile f))).length :=
      List.length_pos.mpr (List.ne_nil_of_mem hmem0)
    refine ⟨?_, rfl, ?_⟩
    · simp only [handleFileUpload]
      rw [if_pos hpos]
    · intro f hmem hbadf
      have hf : f ∈ (a :: as).filter (fun g => !(isAllowedFile g)) :=
        List.mem_filter.mpr ⟨hmem, by rw [hbadf]; rfl⟩
      simp only [invalidFilesMessage, toList_append, List.append_assoc]
      exact infix_tail _ (infix_extend _ (mem_infix_joinComma f _ hf))

/-- C10 witness: one invalid and one valid file — the whole selection is
rejected and nothing is uploaded. -/
theorem C10_witness :
    handleFileUpload ["map.exe", "doc.pdf"] (fun _ => UploadResponse.netError) [] =
      ([] ++ [invalidFilesMessage
          (["map.exe", "doc.pdf"].filter (fun f => !(isAllowedFile f)))], [])
    ∧ (invalidFilesMessage
        (["map.exe", "doc.pdf"].filter (fun f => !(isAllowedFile f)))).isError = true
    ∧ ∀ f ∈ ["map.exe", "doc.pdf"], isAllowedFile f = false →
        f.toList <:+:
          (invalidFilesMessage
            (["map.exe", "doc.pdf"].filter (fun f => !(isAllowedFile f)))).text.toList :=
  C10_invalid_selection_rejected ["map.exe", "doc.pdf"] (fun _ => UploadResponse.netError)
    [] ⟨"map.exe", by decide, by decide⟩

/-- A weather record with a present temperature, a `null` precipitation
total and present wind values. -/
def c2Weather : Weather := ⟨some 20, none, some 10, some 15⟩

/-- C2 counterexample: with `avg_temp_c` present, a `null`
`total_precipitation_mm` is rendered as the number `0`
(`"0mm precip"`), not as an unknown marker — `|| 0` fabricates the
value. -/
theorem C2_counterexample :
    c2Weather.avg_temp_c ≠ none
    ∧ c2Weather.total_precipitation_mm = none
    ∧ "0mm precip".toList <:+: (weatherLine c2Weather).toList := by
  refine ⟨by decide, rfl, ?_⟩
  decide

/-- C2 as amended: `null` wind fields render as `N/A` and a `null`
`avg_temp_c` drops the whole weather line, but a `null`
`total_precipitation_mm` with a present temperature renders as the
numeric value `0`. -/
theorem C2_missing_weather_rendering (w : Weather) :
    (w.avg_temp_c = none → weatherLine w = "")
    ∧ windFieldStr none = "N/A"
    ∧ (∀ t : ℚ, w.avg_temp_c = some t → w.avg_wind_speed_max_kmh = none →
        "avg N/A".toList <:+: (weatherLine w).toList)
    ∧ (∀ t : ℚ, w.avg_temp_c = some t → w.max_wind_gust_kmh = none →
        "gusts N/A".toList <:+: (weatherLine w).toList)
    ∧ (∀ t : ℚ, w.avg_temp_c = some t → w.total_precipitation_mm = none →
        "°C avg, 0mm precip\n".toList <:+: (weatherLine w).toList) := by
  have hNA : windFieldStr none = "N/A" := rfl
  have h0 : jsNumToString (jsOrZero none) = "0" := by decide
  refine ⟨?_, hNA, ?_, ?_, ?_⟩
  · intro h
    simp [weatherLine, h]
  · intro t ht hw
    simp only [weatherLine, ht, hw, hNA, toList_append, List.append_assoc]
    exact infix_tail _ (infix_tail _ (infix_tail _ (infix_tail _ (infix_tail _
      (infix_mid _ "- Wind (7d): ".toList (by decide))))))
  · intro t ht hw
    simp only [weatherLine, ht, hw, hNA, toList_append, List.append_assoc]
    exact infix_tail _ (infix_tail _ (infix_tail _ (infix_tail _ (infix_tail _
      (infix_tail _ (infix_tail _ (infix_mid _ ", ".toList (by decide))))))))
  · intro t ht hp
    simp only [weatherLine, ht, hp, h0, toList_append, List.append_assoc]
    exact infix_tail _ (infix_tail _ (infix_mid3 _ [] (by decide)))

/-- C2 witness: the amended statement applied at concrete weather
records. -/
theorem C2_witness :
    weatherLine emptyWeather = ""
    ∧ "avg N/A".toList <:+: (weatherLine ⟨some 20, none, none, none⟩).toList
    ∧ "gusts N/A".toList <:+: (weatherLine ⟨some 20, none, none, none⟩).toList
    ∧ "°C avg, 0mm precip\n".toList <:+: (weatherLine ⟨some 20, none, none, none⟩).toList :=
  ⟨(C2_missing_weather_rendering emptyWeather).1 rfl,
   (C2_missing_weather_rendering ⟨some 20, none, none, none⟩).2.2.1 20 rfl rfl,
   (C2_missing_weather_rendering ⟨some 20, none, none, none⟩).2.2.2.1 20 rfl rfl,
   (C2_missing_weather_rendering ⟨some 20, none, none, none⟩).2.2.2.2 20 rfl rfl⟩

/-- C3: a successful `/analyze_coordinates` response with a `null`
`terrain_data.elevation` still yields the full appended assistant
tactical-analysis message, with the elevation field rendered as the
explicit marker `Unknown`. -/
theorem C3_null_elevation_renders_unknown (st : AppState) (backend : Backend)
    (coordinates : Coordinates) (terrain_data : TerrainData) (scenario : String)
    (models_used : List String) (strategy : String)
    (hne : ¬(jsTrim st.inputValue = ""))
    (hc : coordTest st.inputValue.toList = true)
    (hresp : backend.analyze =
      .success coordinates terrain_data scenario models_used strategy)
    (helev : terrain_data.elevation = none) :
    (handleSendMessage st backend).1.messages =
      st.messages ++ [⟨"user", st.inputValue, false, none⟩,
        tacticalResponse coordinates terrain_data scenario models_used strategy]
    ∧ (tacticalResponse coordinates terrain_data scenario models_used strategy).role =
        "assistant"
    ∧ (tacticalResponse coordinates terrain_data scenario models_used strategy).mode =
        some "coordinate_tactical"
    ∧ "- Elevation: Unknown".toList <:+:
        (tacticalResponse coordinates terrain_data scenario models_used strategy).text.toList := by
  refine ⟨?_, rfl, rfl, ?_⟩
  · simp only [handleSendMessage]
    rw [if_neg hne, hc, hresp]
    simp
  · simp only [tacticalResponse, tacticalText, helev, toList_append, List.append_assoc]
    iterate 26 apply infix_tail
    exact infix_mid _ [] (by decide)

/-- Concrete terrain data with a `null` elevation, for the C3 witness. -/
def c3Terrain : TerrainData :=
  ⟨⟨true, "good", false⟩, some "Paris", some ⟨some "France", some "fr"⟩,
    some ⟨some 20, some 1, some 10, some 15⟩, none, ⟨2⟩⟩

/-- Concrete frontend state for the C3 witness. -/
def c3State : AppState := ⟨[], "48.8566, 2.3522", false⟩

/-- Concrete backend for the C3 witness. -/
def c3Backend : Backend :=
  ⟨AnalyzeResponse.success ⟨488566 / 10000, 23522 / 10000⟩ c3Terrain "defensive"
    ["OpenStreetMap"] "Hold the high ground.", ChatResponse.netError⟩

/-- C3 witness: the theorem applied on the concrete null-elevation
response. -/
theorem C3_witness :
    (handleSendMessage c3State c3Backend).1.messages =
      c3State.messages ++ [⟨"user", c3State.inputValue, false, none⟩,
        tacticalResponse ⟨488566 / 10000, 23522 / 10000⟩ c3Terrain "defensive"
          ["OpenStreetMap"] "Hold the high ground."]
    ∧ (tacticalResponse ⟨488566 / 10000, 23522 / 10000⟩ c3Terrain "defensive"
        ["OpenStreetMap"] "Hold the high ground.").role = "assistant"
    ∧ (tacticalResponse ⟨488566 / 10000, 23522 / 10000⟩ c3Terrain "defensive"
        ["OpenStreetMap"] "Hold the high ground.").mode = some "coordinate_tactical"
    ∧ "- Elevation: Unknown".toList <:+:
        (tacticalResponse ⟨488566 / 10000, 23522 / 10000⟩ c3Terrain "defensive"
          ["OpenStreetMap"] "Hold the high ground.").text.toList :=
  C3_null_elevation_renders_unknown c3State c3Backend ⟨488566 / 10000, 23522 / 10000⟩
    c3Terrain "defensive" ["OpenStreetMap"] "Hold the high ground."
    (by decide) (by decide) rfl rfl

end TacticalChatbot
